import Mathlib

/-!
Verification of the `thinks/units` C++ units library.

The repository holds two versions of the library:
* `src/thinks/units/units.h` (namespace `thinks`), the current version, and
* `src/units.h` (namespace `units`), an older version.

Both are embedded below.  Modelling choices:

* `std::ratio<N, D>::type` is a rational number reduced to lowest terms with
  positive denominator; it is modelled by Lean's `ℚ` (`Rat`), whose invariant
  is exactly that normal form (`Rat.reduced`, `Rat.den_nz`).  A scale always
  has a nonzero denominator by this invariant.
* the C++ value type `long long` is modelled by `ℤ`; C++ integer division
  truncates toward zero, which is `Int.tdiv`.
* the C++ value type `double` is modelled by `ℚ` (exact arithmetic; the
  conversions and comparisons appearing in the claims are exact in this
  range).  `static_cast<long long>(double)` truncates toward zero, which is
  `ratTrunc` below.
* the category tags `LengthTag`, `AngleTag`, `DoseTag` become the inductive
  `Tag`.
-/

set_option allowUnsafeReducibility true

attribute [semireducible] Rat.add Rat.mul Rat.inv Rat.div Rat.sub

set_option maxRecDepth 4096

/-- Category markers (`LengthTag`, `AngleTag`, `DoseTag` of both headers). -/
inductive Tag where
  | LengthTag
  | AngleTag
  | DoseTag
deriving DecidableEq, Repr

/-- Truncation of a rational toward zero: the semantics of
`static_cast<long long>` applied to a `double` in C++. -/
def ratTrunc (q : ℚ) : ℤ := q.num.tdiv q.den

/-- Dispatch for `numeric_cast<ToArithT>(v)` (a plain `static_cast` in both
headers) at the pairs of modelled value types. -/
class NumericCast (α β : Type) where
  numeric_cast : α → β

instance : NumericCast ℤ ℤ := ⟨id⟩

instance : NumericCast ℚ ℚ := ⟨id⟩

instance : NumericCast ℚ ℤ := ⟨ratTrunc⟩

instance : NumericCast ℤ ℚ := ⟨Int.cast⟩

/-- Arithmetic of the C++ type in which the expression
`(ScaleDiv::num * v) / ScaleDiv::den` is evaluated: when `v` is an integer
type the whole expression is integer arithmetic (truncating division); when
`v` is `double` the `intmax_t` operands are promoted and the arithmetic is
performed on `double` (modelled exactly on `ℚ`). -/
class ScaleArith (α : Type) where
  mulNum : ℤ → α → α
  divDen : α → ℕ → α

instance : ScaleArith ℤ := ⟨fun n v => n * v, fun v d => v.tdiv d⟩

instance : ScaleArith ℚ := ⟨fun n v => (n : ℚ) * v, fun v d => v / (d : ℚ)⟩

/-- Division of two values as written `lhs.value() / ...value()` in C++:
truncating division on integer types, exact division on `double`. -/
class CppDiv (α : Type) where
  div : α → α → α

instance : CppDiv ℤ := ⟨Int.tdiv⟩

instance : CppDiv ℚ := ⟨fun a b => a / b⟩

namespace thinks

namespace units_internal

/-- `MeterScale = std::ratio<100, 1>` (units.h line 28). -/
def MeterScale : ℚ := 100

/-- `CentimeterScale = std::ratio<1>` — the unit length (line 29). -/
def CentimeterScale : ℚ := 1

/-- `MillimeterScale = std::ratio<1, 10>` (line 30). -/
def MillimeterScale : ℚ := 1 / 10

/-- `DegreeScale = std::ratio<1>` — the unit angle (line 34). -/
def DegreeScale : ℚ := 1

/-- `RadianScale = std::ratio<18000000000000, 314159265359>` (line 35). -/
def RadianScale : ℚ := 18000000000000 / 314159265359

/-- `GrayScale = std::ratio<1>` — the unit absorption (line 39). -/
def GrayScale : ℚ := 1

/-- `CentiGrayScale = std::ratio<1, 100>` (line 40). -/
def CentiGrayScale : ℚ := 1 / 100

namespace ScaleHelper

/-- `ScaleDiv = std::ratio_divide<FromScaleT, ToScaleT>::type` (line 75):
the exact quotient of the two scales, reduced to lowest terms (which is the
normal form `ℚ` maintains). -/
def ScaleDiv (f t : ℚ) : ℚ := f / t

/-- `ScaleHelper::Scale` (lines 78-89):
`numeric_cast<ToArithT>((ScaleDiv::num * v) / ScaleDiv::den)`, evaluated in
the arithmetic of the source value type and then cast to the target value
type. -/
def Scale {From To : Type} [ScaleArith From] [NumericCast From To]
    (f t : ℚ) (v : From) : To :=
  NumericCast.numeric_cast
    (ScaleArith.divDen (ScaleArith.mulNum (ScaleDiv f t).num v) (ScaleDiv f t).den)

end ScaleHelper

end units_internal

/-- `Unit<ArithT, ScaleT, TagT>` (units.h lines 133-347): a numeric value
tagged with a scale and a category. -/
structure Unit (α : Type) (scale : ℚ) (tag : Tag) where
  value : α
deriving DecidableEq, Repr

/-- `unit_cast<ToUnitT>(from)` (lines 353-366): converts between units with
the same tag; the target tag is forced equal to the source tag by the
`static_assert` on line 361, which the shared `tag` index reproduces. -/
def unit_cast (To : Type) {From : Type} [ScaleArith From] [NumericCast From To]
    {f : ℚ} {tag : Tag} (t : ℚ) (u : Unit From f tag) : Unit To t tag :=
  ⟨units_internal.ScaleHelper.Scale f t u.value⟩

/-- `operator==` (lines 211-218): `lhs.value() == unit_cast<Unit>(rhs).value()`,
where `Unit` is the full left-hand type (value type and scale). -/
def Unit.eq {α β : Type} [ScaleArith β] [NumericCast β α] [DecidableEq α]
    {s s2 : ℚ} {tag : Tag} (lhs : Unit α s tag) (rhs : Unit β s2 tag) : Bool :=
  decide (lhs.value = (unit_cast α s rhs).value)

/-- `operator!=` (lines 228-235): `lhs.value() != unit_cast<Unit>(rhs).value()`. -/
def Unit.ne {α β : Type} [ScaleArith β] [NumericCast β α] [DecidableEq α]
    {s s2 : ℚ} {tag : Tag} (lhs : Unit α s tag) (rhs : Unit β s2 tag) : Bool :=
  decide (lhs.value ≠ (unit_cast α s rhs).value)

/-- `operator+=` (lines 160-166): accepts a right-hand operand of any scale
of the same tag and performs `value_ += unit_cast<Unit>(rhs).value()`; the
result keeps the left-hand operand's value type and scale. -/
def Unit.addAssign {α β : Type} [ScaleArith β] [NumericCast β α] [Add α]
    {s s2 : ℚ} {tag : Tag} (lhs : Unit α s tag) (rhs : Unit β s2 tag) :
    Unit α s tag :=
  ⟨lhs.value + (unit_cast α s rhs).value⟩

/-- `operator-=` (lines 170-176): `value_ -= unit_cast<Unit>(rhs).value()`. -/
def Unit.subAssign {α β : Type} [ScaleArith β] [NumericCast β α] [Sub α]
    {s s2 : ℚ} {tag : Tag} (lhs : Unit α s tag) (rhs : Unit β s2 tag) :
    Unit α s tag :=
  ⟨lhs.value - (unit_cast α s rhs).value⟩

/-- Binary `operator+` (lines 276-284): both operands must share `ScaleT`
and `TagT` (only the value types may differ); the shared indices `s` and
`tag` reproduce that signature. -/
def Unit.add {α β γ : Type} [HAdd α β γ] {s : ℚ} {tag : Tag}
    (lhs : Unit α s tag) (rhs : Unit β s tag) : Unit γ s tag :=
  ⟨lhs.value + rhs.value⟩

/-- Binary `operator-` (lines 258-265): both operands must share `ScaleT`
and `TagT`. -/
def Unit.sub {α β γ : Type} [HSub α β γ] {s : ℚ} {tag : Tag}
    (lhs : Unit α s tag) (rhs : Unit β s tag) : Unit γ s tag :=
  ⟨lhs.value - rhs.value⟩

/-- `operator/` on two units (lines 325-332):
`lhs.value() / unit_cast<Unit>(rhs).value()` — the right-hand operand is
converted to the left-hand operand's scale and value type; the result is a
bare scalar, not a `Unit`. -/
def Unit.divUnit {α β : Type} [ScaleArith β] [NumericCast β α] [CppDiv α]
    {s s2 : ℚ} {tag : Tag} (lhs : Unit α s tag) (rhs : Unit β s2 tag) : α :=
  CppDiv.div lhs.value (unit_cast α s rhs).value

/-- User-visible alias `Meters` (line 372). -/
abbrev Meters (α : Type) := Unit α units_internal.MeterScale Tag.LengthTag

/-- User-visible alias `Centimeters` (line 373). -/
abbrev Centimeters (α : Type) := Unit α units_internal.CentimeterScale Tag.LengthTag

/-- User-visible alias `Millimeters` (line 374). -/
abbrev Millimeters (α : Type) := Unit α units_internal.MillimeterScale Tag.LengthTag

/-- Signature constraint of binary `operator+` and `operator-` (lines
276-284 and 258-265): an overload exists exactly when the two operand types
share `ScaleT` and share `TagT`.  There is no other overload taking two
units, so a call at differing scales or tags does not compile. -/
def addApplicable (s1 : ℚ) (t1 : Tag) (s2 : ℚ) (t2 : Tag) : Bool :=
  decide (s1 = s2) && decide (t1 = t2)

/-- Signature constraint of binary `operator-`, identical to `operator+`. -/
def subApplicable (s1 : ℚ) (t1 : Tag) (s2 : ℚ) (t2 : Tag) : Bool :=
  decide (s1 = s2) && decide (t1 = t2)

/-- Signature constraint of `operator==` / `operator!=` (lines 211-235):
defined for any two scales but only for operands sharing `TagT`. -/
def eqApplicable (t1 t2 : Tag) : Bool :=
  decide (t1 = t2)

/-- Signature constraint of `unit_cast` (lines 353-366): the
`static_assert` on line 361 requires the source and target `TagT` to be
identical, so cross-category casts do not compile. -/
def castApplicable (t1 t2 : Tag) : Bool :=
  decide (t1 = t2)

/-- `TagSuffix<ScaleT, TagT>::c_str()` (lines 94-123): the suffix lookup is
a set of explicit template specializations; a pair without a registered
specialization does not compile, modelled by `none`. -/
def TagSuffix (s : ℚ) (t : Tag) : Option String :=
  if s = units_internal.MeterScale ∧ t = Tag.LengthTag then some "m"
  else if s = units_internal.CentimeterScale ∧ t = Tag.LengthTag then some "cm"
  else if s = units_internal.MillimeterScale ∧ t = Tag.LengthTag then some "mm"
  else if s = units_internal.DegreeScale ∧ t = Tag.AngleTag then some "deg"
  else if s = units_internal.RadianScale ∧ t = Tag.AngleTag then some "rad"
  else if s = units_internal.GrayScale ∧ t = Tag.DoseTag then some "Gy"
  else if s = units_internal.CentiGrayScale ∧ t = Tag.DoseTag then some "cGy"
  else none

end thinks

/-- Search upward from `k` for the smallest exponent with `d ∣ 10 ^ k`,
with explicit fuel. -/
def decExpAux (d : ℕ) : ℕ → ℕ → ℕ
  | 0, k => k
  | fuel + 1, k => if d ∣ 10 ^ k then k else decExpAux d fuel (k + 1)

/-- Smallest exponent `k` with `d ∣ 10 ^ k`, for denominators of rationals
with a finite decimal expansion. -/
def decExp (d : ℕ) : ℕ := decExpAux d d 0

/-- Decimal rendering of a rational with finite decimal expansion: the
output the default `std::ostream` formatting produces for the `double`
values appearing in the claims (`12.3`, `1.23`, `0.0123`, ...). -/
def decStr (q : ℚ) : String :=
  let k := decExp q.den
  let n := q.num.natAbs * 10 ^ k / q.den
  let sign := if q.num < 0 then "-" else ""
  if k = 0 then sign ++ toString n
  else
    let fr := toString (n % 10 ^ k)
    sign ++ toString (n / 10 ^ k) ++ "." ++
      String.mk (List.replicate (k - fr.length) '0') ++ fr

namespace thinks

/-- Stream output `operator<<` (units.h lines 475-482): prints
`value` then `" ["` then `TagSuffix<ScaleT, TagT>::c_str()` then `"]"`.
Rendering is `none` when the `(scale, tag)` pair has no registered suffix
(in C++ such an instantiation does not compile). -/
def Unit.display {s : ℚ} {tag : Tag} (u : Unit ℚ s tag) : Option String :=
  (TagSuffix s tag).map fun suf => decStr u.value ++ " [" ++ suf ++ "]"

end thinks

namespace units

namespace units_internal

/-- `MeterScale = std::ratio<10, 1>` (src/units.h line 17) — note the
divergence from the `thinks` version, which uses `std::ratio<100, 1>`. -/
def MeterScale : ℚ := 10

/-- `CentimeterScale = std::ratio<1>` — the unit length (line 18). -/
def CentimeterScale : ℚ := 1

/-- `MillimeterScale = std::ratio<1, 10>` (line 19). -/
def MillimeterScale : ℚ := 1 / 10

/-- `DegreeScale = std::ratio<1>` (line 23). -/
def DegreeScale : ℚ := 1

/-- `RadianScale = std::ratio<18000000000000, 314159265359>` (line 24). -/
def RadianScale : ℚ := 18000000000000 / 314159265359

namespace ScaleHelper

/-- `ScaleDiv = std::ratio_divide<FromScaleT, ToScaleT>::type`
(src/units.h line 56). -/
def ScaleDiv (f t : ℚ) : ℚ := f / t

/-- `ScaleHelper::Scale` (src/units.h lines 59-70), textually identical to
the `thinks` version: `numeric_cast<ToArithT>((ScaleDiv::num * v) / ScaleDiv::den)`. -/
def Scale {From To : Type} [ScaleArith From] [NumericCast From To]
    (f t : ℚ) (v : From) : To :=
  NumericCast.numeric_cast
    (ScaleArith.divDen (ScaleArith.mulNum (ScaleDiv f t).num v) (ScaleDiv f t).den)

end ScaleHelper

end units_internal

/-- `Unit<ArithT, ScaleT, TagT>` of src/units.h (lines 108-179). -/
structure Unit (α : Type) (scale : ℚ) (tag : Tag) where
  value : α
deriving DecidableEq, Repr

/-- `scale_cast<ToUnitT>(from)` (src/units.h lines 187-199): same-tag scale
and value-type conversion of the older library version. -/
def scale_cast (To : Type) {From : Type} [ScaleArith From] [NumericCast From To]
    {f : ℚ} {tag : Tag} (t : ℚ) (u : Unit From f tag) : Unit To t tag :=
  ⟨units_internal.ScaleHelper.Scale f t u.value⟩

/-- Alias `Meters` of src/units.h (line 333). -/
abbrev Meters (α : Type) := Unit α units_internal.MeterScale Tag.LengthTag

/-- Alias `Centimeters` of src/units.h (line 334). -/
abbrev Centimeters (α : Type) := Unit α units_internal.CentimeterScale Tag.LengthTag

/-- Alias `Millimeters` of src/units.h (line 335). -/
abbrev Millimeters (α : Type) := Unit α units_internal.MillimeterScale Tag.LengthTag

end units

/-! ## Claim theorems -/

/-- C1: for every numeric value, source scale and target scale within one
category, the conversion engine returns
`castToTargetType((ratioNumerator * v) / ratioDenominator)` where
`ratioNumerator / ratioDenominator` is the reduced exact rational
`fromScale / toScale`; for the integer value type the multiplication by the
numerator happens before the (truncating) division by the denominator, and
for the floating value type the same expression is evaluated exactly.
Scales are modelled by `ℚ`, whose invariant gives the nonzero denominator. -/
theorem C1_scale_conversion_formula (f t : ℚ) (tag : Tag) (v : ℤ) (w : ℚ) :
    Nat.Coprime (thinks.units_internal.ScaleHelper.ScaleDiv f t).num.natAbs
      (thinks.units_internal.ScaleHelper.ScaleDiv f t).den ∧
    ((thinks.units_internal.ScaleHelper.ScaleDiv f t).num : ℚ) /
      ((thinks.units_internal.ScaleHelper.ScaleDiv f t).den : ℚ) = f / t ∧
    (thinks.unit_cast ℤ t (⟨v⟩ : thinks.Unit ℤ f tag)).value =
      ((thinks.units_internal.ScaleHelper.ScaleDiv f t).num * v).tdiv
        ((thinks.units_internal.ScaleHelper.ScaleDiv f t).den : ℤ) ∧
    (thinks.unit_cast ℚ t (⟨w⟩ : thinks.Unit ℚ f tag)).value =
      ((thinks.units_internal.ScaleHelper.ScaleDiv f t).num : ℚ) * w /
        ((thinks.units_internal.ScaleHelper.ScaleDiv f t).den : ℚ) :=
  ⟨(thinks.units_internal.ScaleHelper.ScaleDiv f t).reduced,
    Rat.num_div_den (thinks.units_internal.ScaleHelper.ScaleDiv f t), rfl, rfl⟩

/-- C2: equality of two same-category quantities converts the right-hand
operand to the left-hand operand's scale and then compares the values;
`50 mm == 5 cm` holds and `41 mm != 4 cm` holds. -/
theorem C2_eq_converts_rhs_to_lhs_scale :
    (∀ (s s2 : ℚ) (tag : Tag) (a : thinks.Unit ℤ s tag) (b : thinks.Unit ℤ s2 tag),
      thinks.Unit.eq a b = true ↔
        a.value = (thinks.unit_cast ℤ s b).value) ∧
    thinks.Unit.eq (⟨50⟩ : thinks.Millimeters ℤ) (⟨5⟩ : thinks.Centimeters ℤ) = true ∧
    thinks.Unit.ne (⟨41⟩ : thinks.Millimeters ℤ) (⟨4⟩ : thinks.Centimeters ℤ) = true :=
  ⟨fun _ _ _ _ _ => decide_eq_true_iff, by decide, by decide⟩

/-- C4: `+=` and `-=` first convert the right-hand operand into the
left-hand operand's scale and then combine, the result keeping the left
operand's scale and value type (which the result type of `addAssign` and
`subAssign` shows); `15 mm += 1 cm` yields `25 mm`, which compares equal to
`2.5 cm` (the rational `5/2`). -/
theorem C4_compound_assign_cross_scale :
    (∀ (s s2 : ℚ) (tag : Tag) (a : thinks.Unit ℤ s tag) (b : thinks.Unit ℤ s2 tag),
      (a.addAssign b).value = a.value + (thinks.unit_cast ℤ s b).value ∧
      (a.subAssign b).value = a.value - (thinks.unit_cast ℤ s b).value) ∧
    thinks.Unit.addAssign (⟨15⟩ : thinks.Millimeters ℤ) (⟨1⟩ : thinks.Centimeters ℤ) =
      (⟨25⟩ : thinks.Millimeters ℤ) ∧
    thinks.Unit.eq
      (thinks.Unit.addAssign (⟨15⟩ : thinks.Millimeters ℤ) (⟨1⟩ : thinks.Centimeters ℤ))
      (⟨5 / 2⟩ : thinks.Centimeters ℚ) = true :=
  ⟨fun _ _ _ _ _ => ⟨rfl, rfl⟩, by decide, by decide⟩

/-- C5: division of two same-category quantities converts the right-hand
operand to the left-hand operand's scale first and yields a bare scalar
(truncating integer division for the integer value type);
`14 cm / 7 cm = 2` and `14 cm / 70 mm = 2`. -/
theorem C5_quantity_division_yields_scalar :
    (∀ (s s2 : ℚ) (tag : Tag) (a : thinks.Unit ℤ s tag) (b : thinks.Unit ℤ s2 tag),
      thinks.Unit.divUnit a b =
        Int.tdiv a.value (thinks.unit_cast ℤ s b).value) ∧
    thinks.Unit.divUnit (⟨14⟩ : thinks.Centimeters ℤ) (⟨7⟩ : thinks.Centimeters ℤ) = 2 ∧
    thinks.Unit.divUnit (⟨14⟩ : thinks.Centimeters ℤ) (⟨70⟩ : thinks.Millimeters ℤ) = 2 :=
  ⟨fun _ _ _ _ _ => rfl, by decide, by decide⟩

/-- C9: equality is not symmetric across scales for integer value types:
`4 cm == 41 mm` holds (41 mm truncates to 4 cm) while `41 mm == 4 cm`
fails (4 cm converts to 40 mm). -/
theorem C9_eq_asymmetric_for_integers :
    thinks.Unit.eq (⟨4⟩ : thinks.Centimeters ℤ) (⟨41⟩ : thinks.Millimeters ℤ) = true ∧
    thinks.Unit.eq (⟨41⟩ : thinks.Millimeters ℤ) (⟨4⟩ : thinks.Centimeters ℤ) = false := by
  decide

/-- C3: converting a quantity to another scale of the same category and
back yields the original quantity whenever the forward conversion loses no
precision (the reduced ratio numerator times the value is divisible by the
ratio denominator, so the truncating division is exact); in particular
10 mm converted to cm and back is exactly 10 mm (see the witness). -/
theorem C3_roundtrip_exact (f t : ℚ) (tag : Tag) (v : ℤ)
    (hf : 0 < f) (ht : 0 < t)
    (hexact : ((f / t).den : ℤ) ∣ (f / t).num * v) :
    thinks.unit_cast ℤ f
      (thinks.unit_cast ℤ t (⟨v⟩ : thinks.Unit ℤ f tag)) = ⟨v⟩ := by
  have hf0 : f ≠ 0 := ne_of_gt hf
  have ht0 : t ≠ 0 := ne_of_gt ht
  have hdenq : ((f / t).den : ℚ) ≠ 0 := Nat.cast_ne_zero.mpr (f / t).den_nz
  have hdenp : ((t / f).den : ℚ) ≠ 0 := Nat.cast_ne_zero.mpr (t / f).den_nz
  have hdenzi : ((f / t).den : ℤ) ≠ 0 := Int.natCast_ne_zero.mpr (f / t).den_nz
  have hdenzp : ((t / f).den : ℤ) ≠ 0 := Int.natCast_ne_zero.mpr (t / f).den_nz
  obtain ⟨c, hc⟩ := hexact
  have hr1 : ((f / t).num * v).tdiv ((f / t).den : ℤ) = c := by
    rw [hc]
    exact Int.mul_tdiv_cancel_left c hdenzi
  have h1 : ((f / t).num : ℚ) * (v : ℚ) = ((f / t).den : ℚ) * (c : ℚ) := by
    exact_mod_cast congrArg (fun z : ℤ => (z : ℚ)) hc
  have h2 : ((f / t).num : ℚ) = f / t * ((f / t).den : ℚ) :=
    (div_eq_iff hdenq).mp (Rat.num_div_den (f / t))
  have h3 : ((f / t).den : ℚ) * (f / t * v) = ((f / t).den : ℚ) * c := by
    rw [h2] at h1
    linear_combination h1
  have hcq : (c : ℚ) = f / t * v := (mul_left_cancel₀ hdenq h3).symm
  have hnump : ((t / f).num : ℚ) = t / f * ((t / f).den : ℚ) :=
    (div_eq_iff hdenp).mp (Rat.num_div_den (t / f))
  have key : ((t / f).num : ℚ) * c = (v : ℚ) * ((t / f).den : ℚ) := by
    rw [hnump, hcq]
    have hft : t / f * (f / t) = 1 := by field_simp
    linear_combination ((v : ℚ) * ((t / f).den : ℚ)) * hft
  have keyz : (t / f).num * c = v * ((t / f).den : ℤ) := by exact_mod_cast key
  have hval : ((t / f).num * c).tdiv ((t / f).den : ℤ) = v := by
    rw [keyz]
    exact Int.mul_tdiv_cancel v hdenzp
  show (⟨((t / f).num * (((f / t).num * v).tdiv ((f / t).den : ℤ))).tdiv
      ((t / f).den : ℤ)⟩ : thinks.Unit ℤ f tag) = ⟨v⟩
  rw [hr1, hval]

/-- C3 witness: the round trip at the spec's own example, 10 millimeters
through centimeters and back, with every hypothesis discharged
concretely. -/
theorem C3_roundtrip_exact_witness :
    thinks.unit_cast ℤ thinks.units_internal.MillimeterScale
      (thinks.unit_cast ℤ thinks.units_internal.CentimeterScale
        (⟨10⟩ : thinks.Millimeters ℤ)) = (⟨10⟩ : thinks.Millimeters ℤ) :=
  C3_roundtrip_exact thinks.units_internal.MillimeterScale
    thinks.units_internal.CentimeterScale Tag.LengthTag 10
    (by decide) (by decide) ⟨1, by decide⟩

/-- C6: binary `+` and `-` exist only for operands sharing scale and
category, equality and casts only for operands sharing the category; the
`...Applicable` predicates transcribe the operator signatures and the
`static_assert` in `unit_cast`, and they reject different scales (for
`+`/`-`) and different categories (for all four) — there is no runtime
error path, every embedded operation being a total function. -/
theorem C6_static_rejection :
    (∀ (s1 s2 : ℚ) (tag : Tag), s1 ≠ s2 →
      thinks.addApplicable s1 tag s2 tag = false ∧
      thinks.subApplicable s1 tag s2 tag = false) ∧
    (∀ (s1 s2 : ℚ) (t1 t2 : Tag), t1 ≠ t2 →
      thinks.addApplicable s1 t1 s2 t2 = false ∧
      thinks.subApplicable s1 t1 s2 t2 = false ∧
      thinks.eqApplicable t1 t2 = false ∧
      thinks.castApplicable t1 t2 = false) := by
  constructor
  · intro s1 s2 tag h
    simp [thinks.addApplicable, thinks.subApplicable, h]
  · intro s1 s2 t1 t2 h
    simp [thinks.addApplicable, thinks.subApplicable, thinks.eqApplicable,
      thinks.castApplicable, h]

/-- C6 witness: millimeter plus centimeter is rejected, and every
length/angle mixture is rejected, concretely. -/
theorem C6_static_rejection_witness :
    (thinks.addApplicable thinks.units_internal.MillimeterScale Tag.LengthTag
        thinks.units_internal.CentimeterScale Tag.LengthTag = false ∧
      thinks.subApplicable thinks.units_internal.MillimeterScale Tag.LengthTag
        thinks.units_internal.CentimeterScale Tag.LengthTag = false) ∧
    (thinks.addApplicable thinks.units_internal.CentimeterScale Tag.LengthTag
        thinks.units_internal.DegreeScale Tag.AngleTag = false ∧
      thinks.subApplicable thinks.units_internal.CentimeterScale Tag.LengthTag
        thinks.units_internal.DegreeScale Tag.AngleTag = false ∧
      thinks.eqApplicable Tag.LengthTag Tag.AngleTag = false ∧
      thinks.castApplicable Tag.LengthTag Tag.AngleTag = false) :=
  ⟨C6_static_rejection.1 thinks.units_internal.MillimeterScale
      thinks.units_internal.CentimeterScale Tag.LengthTag (by decide),
    C6_static_rejection.2 thinks.units_internal.CentimeterScale
      thinks.units_internal.DegreeScale Tag.LengthTag Tag.AngleTag (by decide)⟩

/-- C7 counterexample: in the current library (`src/thinks/units/units.h`)
converting 1 meter to centimeters yields 100, not 10 as the claim states,
because `MeterScale` there is `std::ratio<100, 1>`. -/
theorem C7_counterexample_meter_is_100 :
    (thinks.unit_cast ℤ thinks.units_internal.CentimeterScale
      (⟨1⟩ : thinks.Meters ℤ)).value = 100 ∧
    (thinks.unit_cast ℤ thinks.units_internal.CentimeterScale
      (⟨1⟩ : thinks.Meters ℤ)).value ≠ 10 := by
  decide

/-- C7 amended: the centimeter is the base scale (ratio 1) and the
millimeter is 1/10 of it in both library versions, but the meter scale is
100 times the base in `src/thinks/units/units.h` (n meters convert to
100 n centimeters) while `src/units.h` defines it as 10 times the base
(n meters convert to 10 n centimeters). -/
theorem C7_amended_scale_constants :
    thinks.units_internal.CentimeterScale = 1 ∧
    thinks.units_internal.MillimeterScale = 1 / 10 ∧
    thinks.units_internal.MeterScale = 100 ∧
    (∀ v : ℤ, (thinks.unit_cast ℤ thinks.units_internal.CentimeterScale
      (⟨v⟩ : thinks.Meters ℤ)).value = 100 * v) ∧
    units.units_internal.MeterScale = 10 ∧
    (∀ v : ℤ, (units.scale_cast ℤ units.units_internal.CentimeterScale
      (⟨v⟩ : units.Meters ℤ)).value = 10 * v) := by
  refine ⟨rfl, rfl, rfl, fun v => ?_, rfl, fun v => ?_⟩
  · show ((thinks.units_internal.MeterScale / thinks.units_internal.CentimeterScale).num * v).tdiv
      ((thinks.units_internal.MeterScale / thinks.units_internal.CentimeterScale).den : ℤ) = 100 * v
    have h1 : (thinks.units_internal.MeterScale / thinks.units_internal.CentimeterScale).num = 100 := by decide
    have h2 : (thinks.units_internal.MeterScale / thinks.units_internal.CentimeterScale).den = 1 := by decide
    rw [h1, h2]
    exact Int.tdiv_one (100 * v)
  · show ((units.units_internal.MeterScale / units.units_internal.CentimeterScale).num * v).tdiv
      ((units.units_internal.MeterScale / units.units_internal.CentimeterScale).den : ℤ) = 10 * v
    have h1 : (units.units_internal.MeterScale / units.units_internal.CentimeterScale).num = 10 := by decide
    have h2 : (units.units_internal.MeterScale / units.units_internal.CentimeterScale).den = 1 := by decide
    rw [h1, h2]
    exact Int.tdiv_one (10 * v)

/-- C8: every quantity with a registered suffix renders as
`"<value> [<suffix>]"`; 12.3 millimeters (the rational 123/10) renders as
`"12.3 [mm]"`, its conversion to centimeters as `"1.23 [cm]"` and its
conversion to meters as `"0.0123 [m]"`. -/
theorem C8_display_format :
    (∀ (s : ℚ) (tag : Tag) (suf : String), thinks.TagSuffix s tag = some suf →
      ∀ v : ℚ, thinks.Unit.display (⟨v⟩ : thinks.Unit ℚ s tag) =
        some (decStr v ++ " [" ++ suf ++ "]")) ∧
    thinks.Unit.display (⟨123 / 10⟩ : thinks.Millimeters ℚ) = some "12.3 [mm]" ∧
    thinks.Unit.display (thinks.unit_cast ℚ
      thinks.units_internal.CentimeterScale
      (⟨123 / 10⟩ : thinks.Millimeters ℚ)) = some "1.23 [cm]" ∧
    thinks.Unit.display (thinks.unit_cast ℚ
      thinks.units_internal.MeterScale
      (⟨123 / 10⟩ : thinks.Millimeters ℚ)) = some "0.0123 [m]" := by
  refine ⟨fun s tag suf h v => ?_, by decide, by decide, by decide⟩
  show (thinks.TagSuffix s tag).map _ = _
  rw [h]
  rfl

/-- C8 witness: the general rendering shape applied at the millimeter
scale with suffix `"mm"` and value 123/10, hypotheses discharged
concretely. -/
theorem C8_display_format_witness :
    thinks.Unit.display (⟨123 / 10⟩ : thinks.Millimeters ℚ) =
      some (decStr (123 / 10) ++ " [" ++ "mm" ++ "]") :=
  C8_display_format.1 thinks.units_internal.MillimeterScale Tag.LengthTag "mm"
    (by decide) (123 / 10)

/-- C10 counterexample: converting 1 meter to centimeters yields 10 in the
old library (`src/units.h`) but 100 in the current one
(`src/thinks/units/units.h`), so the two libraries are not
conversion-equivalent. -/
theorem C10_counterexample_meter_conversion_differs :
    (units.scale_cast ℤ units.units_internal.CentimeterScale
      (⟨1⟩ : units.Meters ℤ)).value = 10 ∧
    (thinks.unit_cast ℤ thinks.units_internal.CentimeterScale
      (⟨1⟩ : thinks.Meters ℤ)).value = 100 ∧
    (10 : ℤ) ≠ 100 := by
  decide

/-- C10 amended: the two conversion engines compute identical results for
identical scale arguments (for both modelled value types), and the
libraries agree on the centimeter and millimeter scale constants; they
disagree only on the meter scale constant (10 versus 100), so exactly the
meter-scale conversions differ. -/
theorem C10_amended_engines_agree_meter_differs :
    (∀ (f t : ℚ) (tag : Tag) (v : ℤ),
      (units.scale_cast ℤ t (⟨v⟩ : units.Unit ℤ f tag)).value =
        (thinks.unit_cast ℤ t (⟨v⟩ : thinks.Unit ℤ f tag)).value) ∧
    (∀ (f t : ℚ) (tag : Tag) (w : ℚ),
      (units.scale_cast ℚ t (⟨w⟩ : units.Unit ℚ f tag)).value =
        (thinks.unit_cast ℚ t (⟨w⟩ : thinks.Unit ℚ f tag)).value) ∧
    units.units_internal.CentimeterScale = thinks.units_internal.CentimeterScale ∧
    units.units_internal.MillimeterScale = thinks.units_internal.MillimeterScale ∧
    units.units_internal.MeterScale ≠ thinks.units_internal.MeterScale :=
  ⟨fun _ _ _ _ => rfl, fun _ _ _ _ => rfl, rfl, rfl, by decide⟩
